import Mathlib

/-!
Shallow embedding of the lobby-server core (`server/players.py` and, where
the repository ships only tests for a component, models reconstructed from
the specification).  Pure functions of the Python source become Lean
functions; stateful handlers become explicit state-passing functions on
record types; fallible code returns `Except`.
-/

/-- `PlayerState` enum from `server/players.py` (`IntEnum`, values 1..5). -/
inductive PlayerState where
  | IDLE
  | PLAYING
  | HOSTING
  | JOINING
  | SEARCHING_LADDER
deriving Repr, DecidableEq

/-- Integer value of each `PlayerState` member, as declared in the `IntEnum`. -/
def PlayerState.val : PlayerState → Nat
  | .IDLE => 1
  | .PLAYING => 2
  | .HOSTING => 3
  | .JOINING => 4
  | .SEARCHING_LADDER => 5

/-- The `Player` object of `server/players.py`: every attribute assigned in
`Player.__init__`.  The three weak-reference cells (`_lobby_connection`,
`_game`, `_game_connection`) are modelled as `Option` of the referenced
object's id; `none` models the initial `lambda: None` / a cleared cell. -/
structure Player where
  id : Nat
  login : Option String
  session : Nat
  ip : Option String
  game_port_raw : Option Nat
  global_rating : Int × Int
  ladder_rating : Int × Int
  avatar : Option String
  clan : Option String
  country : Option String
  friends : List Nat
  foes : List Nat
  league : Option Nat
  admin : Bool
  mod : Bool
  numGames : Nat
  state : PlayerState
  expandLadder : Nat
  faction : Nat
  lobby_connection_ref : Option Nat
  game_ref : Option Nat
  game_connection_ref : Option Nat
deriving Repr, DecidableEq

/-- Python runtime errors relevant to this module. -/
inductive PyErr where
  | nameError (name : String)
deriving Repr, DecidableEq

/-- Local names in scope inside `Player.__init__` (its parameters and `self`);
no statement in the body binds any further local name before line 55. -/
def playerInitLocals : List String :=
  ["self", "login", "session", "ip", "port", "id", "global_rating",
   "ladder_rating", "clan", "numGames", "permissionGroup", "lobby_connection"]

/-- Module-level names bound in `server/players.py` (its imports and its two
top-level class statements). -/
def playersModuleGlobals : List String :=
  ["weakref", "IntEnum", "unique", "BasePlayer", "PlayerState", "Player"]

/-- Python builtin names referenced anywhere in `server/players.py`;
`lobbyThread` is not a Python builtin. -/
def playersBuiltinsUsed : List String :=
  ["super", "set", "property", "isinstance", "dict", "filter", "str", "hash"]

/-- `Player.__init__` (players.py lines 22-59).  Lines 24-54 assign the
attributes collected in `Player`; line 55 then evaluates the bare name
`lobbyThread`, which Python resolves through locals, module globals and
builtins, raising `NameError` when absent from all three. -/
def Player.init (login : Option String) (session : Nat) (ip : Option String)
    (port : Option Nat) (id : Nat) (global_rating : Int × Int)
    (ladder_rating : Int × Int) (clan : Option String) (numGames : Nat)
    (permissionGroup : Nat) (lobby_connection : Option Nat) :
    Except PyErr Player :=
  let selfObj : Player :=
    { id := id
      login := login
      session := session
      ip := ip
      game_port_raw := port
      global_rating := global_rating
      ladder_rating := ladder_rating
      avatar := none
      clan := clan
      country := none
      friends := []
      foes := []
      league := none
      admin := decide (permissionGroup ≥ 2)
      mod := decide (permissionGroup ≥ 1)
      numGames := numGames
      state := PlayerState.IDLE
      expandLadder := 0
      faction := 1
      lobby_connection_ref := none
      game_ref := none
      game_connection_ref := none }
  if "lobbyThread" ∈ playerInitLocals ++ playersModuleGlobals ++ playersBuiltinsUsed then
    -- dead branch: the name is bound nowhere, so the conditional assignment
    -- `self.lobby_connection = lobbyThread` on line 56 is never reached
    Except.ok selfObj
  else
    Except.error (PyErr.nameError "lobbyThread")

/-- Dereference a weak-reference cell: the target is returned only while the
registry still keeps it alive; a dropped target reads as `none`. -/
def derefWeak (alive : Nat → Bool) : Option Nat → Option Nat
  | none => none
  | some t => if alive t then some t else none

/-- `lobby_connection` property setter: `self._lobby_connection = weakref.ref(value)`. -/
def Player.set_lobby_connection (p : Player) (target : Nat) : Player :=
  { p with lobby_connection_ref := some target }

/-- `game` property setter: `self._game = weakref.ref(value)`. -/
def Player.set_game (p : Player) (target : Nat) : Player :=
  { p with game_ref := some target }

/-- `game_connection` property setter: `self._game_connection = weakref.ref(value)`. -/
def Player.set_game_connection (p : Player) (target : Nat) : Player :=
  { p with game_connection_ref := some target }

/-- `lobby_connection` property getter: calls the stored weak reference. -/
def Player.get_lobby_connection (alive : Nat → Bool) (p : Player) : Option Nat :=
  derefWeak alive p.lobby_connection_ref

/-- `game` property getter: calls the stored weak reference. -/
def Player.get_game (alive : Nat → Bool) (p : Player) : Option Nat :=
  derefWeak alive p.game_ref

/-- `game_connection` property getter: calls the stored weak reference. -/
def Player.get_game_connection (alive : Nat → Bool) (p : Player) : Option Nat :=
  derefWeak alive p.game_connection_ref

/-- A Python value as seen by `Player.__eq__`: either an instance of
`BasePlayer` (which includes every `Player`) or any other object. -/
inductive PyValue where
  | basePlayerInst (p : Player)
  | other (tag : String)
deriving Repr, DecidableEq

/-- `Player.__eq__` (players.py lines 158-162): `False` unless the other
operand is a `BasePlayer` instance, otherwise comparison of the `id` fields. -/
def Player.eq (self : Player) (other : PyValue) : Bool :=
  match other with
  | PyValue.basePlayerInst q => self.id == q.id
  | PyValue.other _ => false

/-- `Player.__hash__` (players.py lines 155-156): `return self.id`. -/
def Player.hash (self : Player) : Nat :=
  self.id

/-- `GameState` enum of the game module (`server/games/game.py` is not part
of the shipped sources; the enum members are those the spec and the tests
name). -/
inductive GameState where
  | INITIALIZING
  | LOBBY
  | LIVE
  | ENDED
deriving Repr, DecidableEq

/-- `ValidityState` outcomes the spec names: `VALID`, `TOO_SHORT`, and a
distinct disqualifying outcome for an unclean result log. -/
inductive ValidityState where
  | VALID
  | TOO_SHORT
  | UNKNOWN_RESULT
deriving Repr, DecidableEq

/-- One entry of the result log: `add_result(reporter, army, outcome, score)`. -/
structure GameResult where
  reporter : Nat
  army : Nat
  outcome : String
  score : Int
deriving Repr, DecidableEq

/-- The `Game` fields the claims touch: id, state, `launched_at` (unset until
launch), `enforce_rating`, validity (determined at end), the result log, and
the mode / password consulted on join. -/
structure Game where
  id : Nat
  game_mode : String
  password : Option String
  state : GameState
  launched_at : Option Nat
  enforce_rating : Bool
  validity : Option ValidityState
  results : List GameResult
deriving Repr, DecidableEq

/-- Modelled from the spec: result-log consistency ("conflicting reports
across peers for the same army are a recognized condition").  A log is clean
and consistent when it is non-empty and, for each army, all retained reports
agree on the outcome. -/
def resultsConsistent (rs : List GameResult) : Bool :=
  !rs.isEmpty &&
    rs.all (fun r => rs.all (fun r2 => r2.army != r.army || r2.outcome == r.outcome))

/-- Modelled from the spec: validity computed "purely from result-log
consistency — a clean, consistent result yields VALID"; an unclean log is a
distinct disqualifying outcome. -/
def validityFromResults (rs : List GameResult) : ValidityState :=
  if resultsConsistent rs then ValidityState.VALID else ValidityState.UNKNOWN_RESULT

/-- Modelled from the spec: `Game.on_game_end()` (`server/games/game.py` is
not part of the shipped sources).  Steps, in order: idempotence (an ENDED
game is not recomputed); a game still LOBBY/INITIALIZING gets no rating
update; otherwise `elapsed = now - launched_at`, and validity is `TOO_SHORT`
when `elapsed < threshold` and `enforce_rating` is false, else computed from
result-log consistency; the rating collaborator `process_game_stats` runs
exactly when validity is VALID; the game transitions to ENDED.  Returns the
ended game and whether `process_game_stats` was invoked. -/
def on_game_end (threshold now : Nat) (g : Game) : Game × Bool :=
  if g.state = GameState.ENDED then
    (g, false)
  else if g.state = GameState.LOBBY ∨ g.state = GameState.INITIALIZING then
    ({ g with state := GameState.ENDED }, false)
  else
    match g.launched_at with
    | none => ({ g with state := GameState.ENDED }, false)
    | some t =>
      let elapsed := now - t
      let v :=
        if elapsed < threshold ∧ g.enforce_rating = false then
          ValidityState.TOO_SHORT
        else
          validityFromResults g.results
      ({ g with state := GameState.ENDED, validity := some v },
       v == ValidityState.VALID)

/-- Logical outbound messages of a `LobbyConnection` (the wire framing is out
of scope): notices `{command: "notice", style, text}` and `game_launch`
replies `{command, mod, uid, args}`. -/
inductive Message where
  | notice (style text : String)
  | game_launch (mod : String) (uid : Nat) (args : List String)
deriving Repr, DecidableEq

/-- The `GameConnection` fields the claims touch: an identity plus the
back-references to its player and its game (the spec's design note allows
cross-references stored as identifiers resolved through registries). -/
structure GameConnection where
  id : Nat
  player_id : Nat
  game_id : Nat
deriving Repr, DecidableEq

/-- A recorded `abort(reason)` call on a game connection. -/
structure AbortEvent where
  conn_id : Nat
  reason : String
deriving Repr, DecidableEq

/-- A row of the `ban` table: banned player id and reason. -/
structure BanRow where
  player_id : Nat
  reason : String
deriving Repr, DecidableEq

/-- One `LobbyConnection` together with the shared state its handlers touch:
the authenticated player, the at-most-one current `GameConnection`, the
`GameService` registry, the messages sent to this client, the aborts issued
to game connections, the persisted ban rows, and the kicks delivered. -/
structure LobbyConnection where
  player : Player
  game_connection : Option GameConnection
  games : List (Nat × Game)
  sent : List Message
  aborts : List AbortEvent
  ban_rows : List BanRow
  kicks : List Nat
  next_conn_id : Nat
deriving Repr, DecidableEq

/-- `GameService` lookup by game id. -/
def lookupGame (games : List (Nat × Game)) (uid : Nat) : Option Game :=
  (games.find? (fun e => e.1 == uid)).map (fun e => e.2)

/-- Modelled from the spec: `LobbyConnection.launch_game(game)`.  If the
caller already has a GameConnection, abort it first with reason
"Player launched a new game"; create a new GameConnection bound to the game
and player; set the mutual references `player.game = game`,
`player.game_connection = conn`, `conn.player = player`; set
`player.state = JOINING`; send one `game_launch` reply carrying the game
mode, the game id and the caller's prior game count. -/
def launch_game (g : Game) (lc : LobbyConnection) : LobbyConnection :=
  let lc1 :=
    match lc.game_connection with
    | some c =>
      { lc with aborts := lc.aborts ++ [AbortEvent.mk c.id "Player launched a new game"] }
    | none => lc
  let conn : GameConnection :=
    { id := lc1.next_conn_id, player_id := lc1.player.id, game_id := g.id }
  { lc1 with
    game_connection := some conn
    next_conn_id := lc1.next_conn_id + 1
    player := { ((lc1.player.set_game g.id).set_game_connection conn.id) with
                state := PlayerState.JOINING }
    sent := lc1.sent ++
      [Message.game_launch g.game_mode g.id
        ["/numgames " ++ toString lc1.player.numGames]] }

/-- Modelled from the spec: `command_restore_game_session {game_id}`.  An
unregistered id gets the "does no longer exist" notice; a game not LIVE and
not LOBBY gets the "no longer available" notice — both leave the player's
state and game connection untouched.  An eligible game gets a GameConnection
attached and `player.state = PLAYING`. -/
def command_restore_game_session (game_id : Nat) (lc : LobbyConnection) :
    LobbyConnection :=
  match lookupGame lc.games game_id with
  | none =>
    { lc with sent := lc.sent ++
        [Message.notice "info" "The game you were connected to does no longer exist"] }
  | some g =>
    if g.state = GameState.LIVE ∨ g.state = GameState.LOBBY then
      let conn : GameConnection :=
        { id := lc.next_conn_id, player_id := lc.player.id, game_id := g.id }
      { lc with
        game_connection := some conn
        next_conn_id := lc.next_conn_id + 1
        player := { ((lc.player.set_game g.id).set_game_connection conn.id) with
                    state := PlayerState.PLAYING } }
    else
      { lc with sent := lc.sent ++
          [Message.notice "info" "The game you were connected to is no longer available"] }

/-- The decimal string `str(n)` of a non-negative Python int, as its list of
digit values, most significant first. -/
def pyStr (n : Nat) : List Nat :=
  if n = 0 then [0] else (Nat.digits 10 n).reverse

/-- Python `int(s)` on a candidate digit string (digit values most
significant first): defined only for a non-empty all-digit string. -/
def pyInt (ds : List Nat) : Option Nat :=
  if !ds.isEmpty && ds.all (fun d => d < 10) then
    some (Nat.ofDigits 10 ds.reverse)
  else
    none

/-- The `uid` field of a join request: a JSON number or a string. -/
inductive UidVal where
  | num (n : Nat)
  | str (ds : List Nat)
deriving Repr, DecidableEq

/-- Modelled from the spec: uid resolution on join "accept numeric or
numeric-string". -/
def resolve_uid : UidVal → Option Nat
  | UidVal.num n => some n
  | UidVal.str ds => pyInt ds

/-- A `game_join` request: the uid and the supplied password. -/
structure JoinRequest where
  uid : UidVal
  password : Option String
deriving Repr, DecidableEq

/-- Modelled from the spec: `command_game_join(info)`.  Resolve the uid
(numeric or numeric-string); an absent game yields the "host has left"
notice; a set password that the supplied password does not case-sensitively
match yields the "bad password" notice and no launch; otherwise
`launch_game` runs for the caller against that game. -/
def command_game_join (req : JoinRequest) (lc : LobbyConnection) :
    LobbyConnection :=
  match resolve_uid req.uid with
  | none => lc
  | some uid =>
    match lookupGame lc.games uid with
    | none =>
      { lc with sent := lc.sent ++
          [Message.notice "info" "The host has left the game"] }
    | some g =>
      match g.password with
      | none => launch_game g lc
      | some pw =>
        if req.password = some pw then
          launch_game g lc
        else
          { lc with sent := lc.sent ++
              [Message.notice "info" "Bad password (it\x27s case sensitive)"] }

/-- The ban payload of an admin `closelobby` request. -/
structure BanPayload where
  reason : String
  duration : Nat
  period : Option String
deriving Repr, DecidableEq

/-- Python `str.upper()` on the ASCII strings this handler sees: uppercase
every character. -/
def py_upper (s : String) : String :=
  String.mk (s.data.map Char.toUpper)

/-- Modelled from the spec: the fixed allow-list of ban period unit tokens
(day/week/month plus the default seconds unit used when no period is given). -/
def allowed_ban_periods : List String :=
  ["SECOND", "DAY", "WEEK", "MONTH"]

/-- Modelled from the spec: the `closelobby` branch of `command_admin`.
The target is kicked with a notice referencing the rule link; a ban payload
first has its period validated (uppercased) against the fixed allow-list —
a value outside it yields an error notice, no kick and no database write;
a ban against a target who already holds a ban row persists no additional
row (duplicate ban is a no-op). -/
def command_admin_closelobby (target_id : Nat) (banReq : Option BanPayload)
    (lc : LobbyConnection) : LobbyConnection :=
  match banReq with
  | none => { lc with kicks := lc.kicks ++ [target_id] }
  | some b =>
    let period := py_upper (b.period.getD "SECOND")
    if allowed_ban_periods.contains period then
      let lc1 := { lc with kicks := lc.kicks ++ [target_id] }
      if lc1.ban_rows.any (fun r => r.player_id == target_id) then
        lc1
      else
        { lc1 with ban_rows := lc1.ban_rows ++ [BanRow.mk target_id b.reason] }
    else
      { lc with sent := lc.sent ++
          [Message.notice "error" ("Period \x27" ++ period ++ "\x27 is not allowed!")] }

/-- The fatal, connection-closing error class of `server/lobbyconnection.py`. -/
inductive ClientError where
  | fatal (msg : String)
deriving Repr, DecidableEq

/-- The observable outcome of `check_policy_conformity`: the boolean
compliance result, how many times `abort` ran on the connection, and the ban
rows the call persisted. -/
structure PolicyOutcome where
  compliant : Bool
  aborts : Nat
  new_bans : List BanRow
deriving Repr, DecidableEq

/-- Modelled from the spec: `check_policy_conformity(player_id, verdict,
session)` (`server/lobbyconnection.py` is not part of the shipped sources).
"honest" is compliant with no side effect; "fraudulent" for a player id
present in persistent storage records a ban with the fixed reason and aborts
once, returning non-compliant; "fraudulent" for an absent player id is a
data-integrity violation surfaced as a fatal `ClientError`; any other
verdict (including "vm" and "already_associated") is a policy failure:
abort once, return non-compliant. -/
def check_policy_conformity (known_players : List Nat) (player_id : Nat)
    (verdict : String) : Except ClientError PolicyOutcome :=
  if verdict = "honest" then
    Except.ok { compliant := true, aborts := 0, new_bans := [] }
  else if verdict = "fraudulent" then
    if known_players.contains player_id then
      Except.ok
        { compliant := false
          aborts := 1
          new_bans := [BanRow.mk player_id "Auto-banned because of fraudulent login attempt"] }
    else
      Except.error (ClientError.fatal "Invalid player id")
  else
    Except.ok { compliant := false, aborts := 1, new_bans := [] }

/-- A concrete player used by the witness theorems. -/
def samplePlayerA : Player :=
  { id := 1
    login := some "Dostya"
    session := 0
    ip := none
    game_port_raw := none
    global_rating := (1500, 500)
    ladder_rating := (1500, 500)
    avatar := none
    clan := none
    country := none
    friends := []
    foes := []
    league := none
    admin := false
    mod := false
    numGames := 3
    state := PlayerState.IDLE
    expandLadder := 0
    faction := 1
    lobby_connection_ref := none
    game_ref := none
    game_connection_ref := none }

/-- A concrete short-lived custom game used by the witness theorems: LIVE,
launched 60 seconds before the end, one clean result for army 1. -/
def sampleShortGame : Game :=
  { id := 42
    game_mode := "faf"
    password := none
    state := GameState.LIVE
    launched_at := some 940
    enforce_rating := false
    validity := none
    results := [{ reporter := 0, army := 1, outcome := "VICTORY", score := 5 }] }

/-- A concrete lobby connection used by the witness theorems: the player of
`samplePlayerA`, one existing game connection, and a registry with
`sampleShortGame` under id 42. -/
def sampleLC : LobbyConnection :=
  { player := samplePlayerA
    game_connection := some { id := 7, player_id := 1, game_id := 41 }
    games := [(42, sampleShortGame)]
    sent := []
    aborts := []
    ban_rows := []
    kicks := []
    next_conn_id := 8 }

/-- Fields of `Player` other than the three weak-reference cells; used to
state that a weak-reference setter mutates no other `Player` field. -/
def agreesOutsideRefs (q p : Player) : Prop :=
  q.id = p.id ∧ q.login = p.login ∧ q.session = p.session ∧ q.ip = p.ip ∧
  q.game_port_raw = p.game_port_raw ∧ q.global_rating = p.global_rating ∧
  q.ladder_rating = p.ladder_rating ∧ q.avatar = p.avatar ∧ q.clan = p.clan ∧
  q.country = p.country ∧ q.friends = p.friends ∧ q.foes = p.foes ∧
  q.league = p.league ∧ q.admin = p.admin ∧ q.mod = p.mod ∧
  q.numGames = p.numGames ∧ q.state = p.state ∧
  q.expandLadder = p.expandLadder ∧ q.faction = p.faction

/-- Claim C3: every call to the `Player` constructor raises `NameError`
before an instance is returned — the initializer body reads the name
`lobbyThread`, which is bound neither among the locals of `__init__`, nor in
the module's globals, nor among the builtins, while the corresponding
parameter is named `lobby_connection`; hence no `Player` instance can ever
be created through this public constructor. -/
theorem player_init_always_raises_name_error (login : Option String)
    (session : Nat) (ip : Option String) (port : Option Nat) (id : Nat)
    (global_rating ladder_rating : Int × Int) (clan : Option String)
    (numGames permissionGroup : Nat) (lobby_conn : Option Nat) :
    Player.init login session ip port id global_rating ladder_rating clan
        numGames permissionGroup lobby_conn
      = Except.error (PyErr.nameError "lobbyThread") := by
  simp [Player.init, playerInitLocals, playersModuleGlobals, playersBuiltinsUsed]

/-- Claim C10: `Player` equality and hashing depend on the `id` field alone —
`p == q` holds for `BasePlayer` instances exactly when the ids agree,
comparing with any non-`BasePlayer` value yields `False` (never an
exception), `hash(p) = p.id`, and equal players hash equally. -/
theorem player_eq_hash_by_id (p q : Player) (tag : String) :
    (Player.eq p (PyValue.basePlayerInst q) = true ↔ p.id = q.id) ∧
    Player.eq p (PyValue.other tag) = false ∧
    Player.hash p = p.id ∧
    (Player.eq p (PyValue.basePlayerInst q) = true → Player.hash p = Player.hash q) := by
  refine ⟨?_, rfl, rfl, ?_⟩
  · simp [Player.eq]
  · intro h
    simpa [Player.eq, Player.hash] using h

/-- Claim C10 witness: concrete players with equal ids but different logins
compare equal and hash equally; a non-`BasePlayer` value compares `False`. -/
theorem player_eq_hash_by_id_witness :
    (Player.eq { samplePlayerA with login := some "Dostya" }
        (PyValue.basePlayerInst { samplePlayerA with login := some "Rhiza" }) = true ↔
      ({ samplePlayerA with login := some "Dostya" } : Player).id =
        ({ samplePlayerA with login := some "Rhiza" } : Player).id) ∧
    Player.eq { samplePlayerA with login := some "Dostya" } (PyValue.other "int") = false ∧
    Player.hash { samplePlayerA with login := some "Dostya" } =
      ({ samplePlayerA with login := some "Dostya" } : Player).id ∧
    (Player.eq { samplePlayerA with login := some "Dostya" }
        (PyValue.basePlayerInst { samplePlayerA with login := some "Rhiza" }) = true →
      Player.hash { samplePlayerA with login := some "Dostya" } =
        Player.hash { samplePlayerA with login := some "Rhiza" }) :=
  player_eq_hash_by_id { samplePlayerA with login := some "Dostya" }
    { samplePlayerA with login := some "Rhiza" } "int"

/-- Claim C9: assigning to `game`, `game_connection` or `lobby_connection`
only replaces that single stored weak reference — every other `Player` field
is unchanged, the other two cells are unchanged, and no referenced object is
torn down (the setter touches nothing but its own cell); and the stored
reference is non-owning: once the referenced target is dropped from its
registry, reading the property returns `none`. -/
theorem player_weakref_setters_frame (p : Player) (t : Nat) (alive : Nat → Bool) :
    (agreesOutsideRefs (p.set_game t) p ∧
      (p.set_game t).lobby_connection_ref = p.lobby_connection_ref ∧
      (p.set_game t).game_connection_ref = p.game_connection_ref ∧
      (p.set_game t).game_ref = some t) ∧
    (agreesOutsideRefs (p.set_game_connection t) p ∧
      (p.set_game_connection t).lobby_connection_ref = p.lobby_connection_ref ∧
      (p.set_game_connection t).game_ref = p.game_ref ∧
      (p.set_game_connection t).game_connection_ref = some t) ∧
    (agreesOutsideRefs (p.set_lobby_connection t) p ∧
      (p.set_lobby_connection t).game_ref = p.game_ref ∧
      (p.set_lobby_connection t).game_connection_ref = p.game_connection_ref ∧
      (p.set_lobby_connection t).lobby_connection_ref = some t) ∧
    (alive t = false →
      Player.get_game alive (p.set_game t) = none ∧
      Player.get_game_connection alive (p.set_game_connection t) = none ∧
      Player.get_lobby_connection alive (p.set_lobby_connection t) = none) := by
  refine ⟨⟨?_, rfl, rfl, rfl⟩, ⟨?_, rfl, rfl, rfl⟩, ⟨?_, rfl, rfl, rfl⟩, ?_⟩
  · exact ⟨rfl, rfl, rfl, rfl, rfl, rfl, rfl, rfl, rfl, rfl, rfl, rfl, rfl,
      rfl, rfl, rfl, rfl, rfl, rfl⟩
  · exact ⟨rfl, rfl, rfl, rfl, rfl, rfl, rfl, rfl, rfl, rfl, rfl, rfl, rfl,
      rfl, rfl, rfl, rfl, rfl, rfl⟩
  · exact ⟨rfl, rfl, rfl, rfl, rfl, rfl, rfl, rfl, rfl, rfl, rfl, rfl, rfl,
      rfl, rfl, rfl, rfl, rfl, rfl⟩
  · intro h
    refine ⟨?_, ?_, ?_⟩ <;>
      simp [Player.get_game, Player.get_game_connection, Player.get_lobby_connection,
        Player.set_game, Player.set_game_connection, Player.set_lobby_connection,
        derefWeak, h]

/-- Claim C9 witness: on a concrete player, setting the `game` weak reference
to a target that the registry has dropped leaves every other field unchanged
and the dropped target reads back as `none`. -/
theorem player_weakref_setters_frame_witness :
    ((fun _ => false : Nat → Bool) 9 = false) ∧
    (agreesOutsideRefs (samplePlayerA.set_game 9) samplePlayerA ∧
      Player.get_game (fun _ => false) (samplePlayerA.set_game 9) = none) :=
  ⟨rfl,
   (player_weakref_setters_frame samplePlayerA 9 (fun _ => false)).1.1,
   ((player_weakref_setters_frame samplePlayerA 9 (fun _ => false)).2.2.2 rfl).1⟩

/-- Claim C1: for every launched game (state LIVE, `launched_at` set), if
`on_game_end()` runs with `elapsed = now - launched_at` strictly below the
minimum duration threshold and `enforce_rating` false, the game ends with
validity `TOO_SHORT` and the rating collaborator `process_game_stats` is
never invoked. -/
theorem on_game_end_too_short (threshold now t : Nat) (g : Game)
    (hstate : g.state = GameState.LIVE) (hlaunch : g.launched_at = some t)
    (hshort : now - t < threshold) (henf : g.enforce_rating = false) :
    (on_game_end threshold now g).1.validity = some ValidityState.TOO_SHORT ∧
    (on_game_end threshold now g).2 = false := by
  simp [on_game_end, hstate, hlaunch, hshort, henf]

/-- Claim C1 witness: the concrete LIVE game that ran for 60 seconds against
a 240-second threshold without `enforce_rating` ends `TOO_SHORT`, with no
stats processing. -/
theorem on_game_end_too_short_witness :
    sampleShortGame.state = GameState.LIVE ∧
    sampleShortGame.launched_at = some 940 ∧
    1000 - 940 < 240 ∧
    sampleShortGame.enforce_rating = false ∧
    ((on_game_end 240 1000 sampleShortGame).1.validity = some ValidityState.TOO_SHORT ∧
      (on_game_end 240 1000 sampleShortGame).2 = false) :=
  ⟨rfl, rfl, by decide, rfl,
   on_game_end_too_short 240 1000 940 sampleShortGame rfl rfl (by decide) rfl⟩

/-- Claim C2: a launched game whose elapsed time is below the minimum
duration threshold but whose `enforce_rating` flag is true bypasses the
early-abort check; validity comes from result-log consistency alone, so a
clean, consistent result log yields `VALID`. -/
theorem on_game_end_enforce_rating_valid (threshold now t : Nat) (g : Game)
    (hstate : g.state = GameState.LIVE) (hlaunch : g.launched_at = some t)
    (hshort : now - t < threshold) (henf : g.enforce_rating = true)
    (hclean : resultsConsistent g.results = true) :
    (on_game_end threshold now g).1.validity = some ValidityState.VALID := by
  simp [on_game_end, hstate, hlaunch, henf, validityFromResults, hclean]

/-- Claim C2 witness: the same short game with `enforce_rating` set and its
clean single-army result ends `VALID`. -/
theorem on_game_end_enforce_rating_valid_witness :
    ({ sampleShortGame with enforce_rating := true } : Game).state = GameState.LIVE ∧
    ({ sampleShortGame with enforce_rating := true } : Game).launched_at = some 940 ∧
    1000 - 940 < 240 ∧
    ({ sampleShortGame with enforce_rating := true } : Game).enforce_rating = true ∧
    resultsConsistent ({ sampleShortGame with enforce_rating := true } : Game).results = true ∧
    (on_game_end 240 1000 { sampleShortGame with enforce_rating := true }).1.validity =
      some ValidityState.VALID :=
  ⟨rfl, rfl, by decide, rfl, by decide,
   on_game_end_enforce_rating_valid 240 1000 940
     { sampleShortGame with enforce_rating := true } rfl rfl (by decide) rfl (by decide)⟩

/-- Parsing the decimal string of a non-negative int returns the int:
`int(str(n)) = n`. -/
theorem pyInt_pyStr (n : Nat) : pyInt (pyStr n) = some n := by
  rcases eq_or_ne n 0 with h | h
  · subst h; rfl
  · have hne : Nat.digits 10 n ≠ [] := Nat.digits_ne_nil_iff_ne_zero.mpr h
    simp only [pyStr, pyInt, if_neg h, List.reverse_reverse]
    rw [if_pos]
    · rw [Nat.ofDigits_digits]
    · simp only [Bool.and_eq_true, Bool.not_eq_true', List.all_eq_true,
        decide_eq_true_eq, List.isEmpty_eq_true]
      refine ⟨by simpa using hne, ?_⟩
      intro d hd
      exact Nat.digits_lt_base (by norm_num) (List.mem_reverse.mp hd)

/-- Claim C8: for every game id `n`, `command_game_join` invoked with the uid
given as the numeric string `str(n)` produces exactly the same observable
behaviour — same game resolution, same reply, same resulting state — as the
same request with the uid given as the integer `n`. -/
theorem command_game_join_uid_str_eq_int (n : Nat) (pw : Option String)
    (lc : LobbyConnection) :
    command_game_join { uid := UidVal.str (pyStr n), password := pw } lc =
      command_game_join { uid := UidVal.num n, password := pw } lc := by
  simp [command_game_join, resolve_uid, pyInt_pyStr]

/-- Claim C8 witness: joining game 42 of the concrete lobby connection with
uid "42" equals joining it with uid 42. -/
theorem command_game_join_uid_str_eq_int_witness :
    command_game_join { uid := UidVal.str (pyStr 42), password := none } sampleLC =
      command_game_join { uid := UidVal.num 42, password := none } sampleLC :=
  command_game_join_uid_str_eq_int 42 none sampleLC

/-- Claim C5: `launch_game` first aborts the caller's existing GameConnection
(when one exists) with exactly the reason "Player launched a new game", then
creates a new GameConnection whose back-references are mutually consistent
with the player (`player.game = game`, `player.game_connection = conn`,
`conn.player = player`), sets `player.state = JOINING`, and sends exactly
one `game_launch` response. -/
theorem launch_game_spec (lc : LobbyConnection) (g : Game) :
    (∀ c, lc.game_connection = some c →
      (launch_game g lc).aborts =
        lc.aborts ++ [AbortEvent.mk c.id "Player launched a new game"]) ∧
    (lc.game_connection = none → (launch_game g lc).aborts = lc.aborts) ∧
    (launch_game g lc).player.game_ref = some g.id ∧
    (∃ nc, (launch_game g lc).game_connection = some nc ∧
      (launch_game g lc).player.game_connection_ref = some nc.id ∧
      nc.player_id = lc.player.id ∧ nc.game_id = g.id) ∧
    (launch_game g lc).player.state = PlayerState.JOINING ∧
    (launch_game g lc).sent = lc.sent ++
      [Message.game_launch g.game_mode g.id
        ["/numgames " ++ toString lc.player.numGames]] := by
  cases hgc : lc.game_connection with
  | none =>
    refine ⟨?_, ?_, ?_,
        ⟨GameConnection.mk lc.next_conn_id lc.player.id g.id, ?_, ?_, rfl, rfl⟩, ?_, ?_⟩ <;>
      simp [launch_game, hgc, Player.set_game, Player.set_game_connection]
  | some c =>
    refine ⟨?_, ?_, ?_,
        ⟨GameConnection.mk lc.next_conn_id lc.player.id g.id, ?_, ?_, rfl, rfl⟩, ?_, ?_⟩ <;>
      simp [launch_game, hgc, Player.set_game, Player.set_game_connection]

/-- Claim C5 witness: launching `sampleShortGame` on the concrete connection
holding game connection 7 aborts it with the exact reason, wires the mutual
back-references, moves the player to JOINING and sends one `game_launch`. -/
theorem launch_game_spec_witness :
    sampleLC.game_connection = some { id := 7, player_id := 1, game_id := 41 } ∧
    (launch_game sampleShortGame sampleLC).aborts =
      sampleLC.aborts ++ [AbortEvent.mk 7 "Player launched a new game"] ∧
    (launch_game sampleShortGame sampleLC).player.game_ref = some 42 ∧
    (launch_game sampleShortGame sampleLC).player.state = PlayerState.JOINING ∧
    (launch_game sampleShortGame sampleLC).sent =
      sampleLC.sent ++ [Message.game_launch "faf" 42 ["/numgames 3"]] :=
  ⟨rfl,
   (launch_game_spec sampleLC sampleShortGame).1
     { id := 7, player_id := 1, game_id := 41 } rfl,
   (launch_game_spec sampleLC sampleShortGame).2.2.1,
   (launch_game_spec sampleLC sampleShortGame).2.2.2.2.1,
   (launch_game_spec sampleLC sampleShortGame).2.2.2.2.2⟩

/-- Claim C6: `restore_game_session(game_id)` leaves the player's state and
game connection completely unchanged and only emits an informational notice
whenever the game id is unregistered or the game's state is not LIVE and not
LOBBY; whenever the game exists in state LIVE or LOBBY it attaches a
GameConnection and sets `player.state = PLAYING`. -/
theorem restore_game_session_spec (gid : Nat) (lc : LobbyConnection) :
    (lookupGame lc.games gid = none →
      command_restore_game_session gid lc =
        { lc with sent := lc.sent ++
            [Message.notice "info" "The game you were connected to does no longer exist"] }) ∧
    (∀ g, lookupGame lc.games gid = some g →
      g.state ≠ GameState.LIVE → g.state ≠ GameState.LOBBY →
      command_restore_game_session gid lc =
        { lc with sent := lc.sent ++
            [Message.notice "info" "The game you were connected to is no longer available"] }) ∧
    (∀ g, lookupGame lc.games gid = some g →
      (g.state = GameState.LIVE ∨ g.state = GameState.LOBBY) →
      (command_restore_game_session gid lc).game_connection.isSome = true ∧
      (command_restore_game_session gid lc).player.state = PlayerState.PLAYING) := by
  refine ⟨?_, ?_, ?_⟩
  · intro h
    simp [command_restore_game_session, h]
  · intro g hg h1 h2
    simp [command_restore_game_session, hg, h1, h2]
  · intro g hg helig
    simp [command_restore_game_session, hg, helig, Player.set_game,
      Player.set_game_connection]

/-- Claim C6 witness: on the concrete connection, restoring an unregistered
game id leaves the player (IDLE, no game connection) untouched beyond the
notice, and restoring the registered LIVE game 42 attaches a connection and
moves the player to PLAYING. -/
theorem restore_game_session_spec_witness :
    lookupGame sampleLC.games 123 = none ∧
    command_restore_game_session 123 sampleLC =
      { sampleLC with sent := sampleLC.sent ++
          [Message.notice "info" "The game you were connected to does no longer exist"] } ∧
    lookupGame sampleLC.games 42 = some sampleShortGame ∧
    ((command_restore_game_session 42 sampleLC).game_connection.isSome = true ∧
      (command_restore_game_session 42 sampleLC).player.state = PlayerState.PLAYING) :=
  ⟨by decide,
   (restore_game_session_spec 123 sampleLC).1 (by decide),
   by decide,
   (restore_game_session_spec 42 sampleLC).2.2 sampleShortGame (by decide)
     (Or.inl rfl)⟩

/-- Claim C7: an admin `closelobby` request whose ban period is outside the
fixed allow-list emits an error notice, kicks nobody and persists zero ban
rows — the state is unchanged apart from the notice; and any ban request
against a target who already holds a ban row persists no additional row. -/
theorem closelobby_ban_period_and_duplicate (lc : LobbyConnection)
    (target : Nat) (b : BanPayload) :
    (∀ p, b.period = some p → allowed_ban_periods.contains (py_upper p) = false →
      command_admin_closelobby target (some b) lc =
        { lc with sent := lc.sent ++
            [Message.notice "error" ("Period \x27" ++ py_upper p ++ "\x27 is not allowed!")] }) ∧
    (lc.ban_rows.any (fun r => r.player_id == target) = true →
      (command_admin_closelobby target (some b) lc).ban_rows = lc.ban_rows) := by
  constructor
  · intro p hp hbad
    have hmem : py_upper p ∉ allowed_ban_periods := by simpa using hbad
    simp [command_admin_closelobby, hp, hmem]
  · intro hdup
    have hex : ∃ r ∈ lc.ban_rows, r.player_id = target := by
      simpa using hdup
    by_cases hper : py_upper (b.period.getD "SECOND") ∈ allowed_ban_periods
    · simp [command_admin_closelobby, hper, hex]
    · simp [command_admin_closelobby, hper]

/-- Claim C7 witness: on the concrete connection, a ban with period
"\x27) injected!" is rejected with the exact error notice and writes nothing,
and a second ban against the already-banned target 200 adds no row. -/
theorem closelobby_ban_period_and_duplicate_witness :
    (BanPayload.mk "Unit test" 2 (some ") injected!")).period = some ") injected!" ∧
    allowed_ban_periods.contains (py_upper ") injected!") = false ∧
    command_admin_closelobby 200 (some (BanPayload.mk "Unit test" 2 (some ") injected!")))
        sampleLC =
      { sampleLC with sent := sampleLC.sent ++
          [Message.notice "error"
            ("Period \x27" ++ py_upper ") injected!" ++ "\x27 is not allowed!")] } ∧
    (({ sampleLC with ban_rows := [BanRow.mk 200 "Unit test"] } :
        LobbyConnection).ban_rows.any (fun r => r.player_id == 200) = true ∧
      (command_admin_closelobby 200 (some (BanPayload.mk "Unit test - already banned" 1000 none))
          { sampleLC with ban_rows := [BanRow.mk 200 "Unit test"] }).ban_rows =
        ({ sampleLC with ban_rows := [BanRow.mk 200 "Unit test"] } :
          LobbyConnection).ban_rows) :=
  ⟨rfl, by decide,
   (closelobby_ban_period_and_duplicate sampleLC 200
       (BanPayload.mk "Unit test" 2 (some ") injected!"))).1 ") injected!" rfl (by decide),
   by decide,
   (closelobby_ban_period_and_duplicate
       { sampleLC with ban_rows := [BanRow.mk 200 "Unit test"] } 200
       (BanPayload.mk "Unit test - already banned" 1000 none)).2 (by decide)⟩

/-- Claim C4: `check_policy_conformity` returns true if and only if the
verdict is "honest" (with no side effect); for each verdict in {"vm",
"already_associated", "fraudulent"} with an existing player id it returns
false and invokes abort exactly once, "fraudulent" additionally recording a
ban with a fixed reason; and "fraudulent" with a player id absent from
persistent storage raises a fatal `ClientError` instead of returning false. -/
theorem check_policy_conformity_spec (known : List Nat) (pid : Nat) (v : String) :
    ((∃ out, check_policy_conformity known pid v = Except.ok out ∧
        out.compliant = true) ↔ v = "honest") ∧
    (v = "honest" →
      check_policy_conformity known pid v =
        Except.ok { compliant := true, aborts := 0, new_bans := [] }) ∧
    ((v = "vm" ∨ v = "already_associated") → known.contains pid = true →
      check_policy_conformity known pid v =
        Except.ok { compliant := false, aborts := 1, new_bans := [] }) ∧
    (v = "fraudulent" → known.contains pid = true →
      check_policy_conformity known pid v =
        Except.ok { compliant := false, aborts := 1, new_bans :=
                    [BanRow.mk pid "Auto-banned because of fraudulent login attempt"] }) ∧
    (v = "fraudulent" → known.contains pid = false →
      check_policy_conformity known pid v =
        Except.error (ClientError.fatal "Invalid player id")) := by
  refine ⟨?_, ?_, ?_, ?_, ?_⟩
  · constructor
    · rintro ⟨out, hok, hc⟩
      by_cases h1 : v = "honest"
      · exact h1
      · exfalso
        by_cases h2 : v = "fraudulent"
        · by_cases h3 : pid ∈ known
          · simp [check_policy_conformity, h1, h2, h3] at hok
            subst hok
            simp at hc
          · simp [check_policy_conformity, h1, h2, h3] at hok
        · simp [check_policy_conformity, h1, h2] at hok
          subst hok
          simp at hc
    · intro h
      exact ⟨{ compliant := true, aborts := 0, new_bans := [] },
        by simp [check_policy_conformity, h], rfl⟩
  · intro h
    simp [check_policy_conformity, h]
  · rintro (h | h) hknown <;>
      simp [check_policy_conformity, h, hknown]
  · intro h hknown
    have hmem : pid ∈ known := by simpa using hknown
    simp [check_policy_conformity, h, hmem]
  · intro h hknown
    have hmem : pid ∉ known := by simpa using hknown
    simp [check_policy_conformity, h, hmem]

/-- Claim C4 witness: with players {1, 200} on record, "honest" is compliant
with no side effect, "vm" and "already_associated" and "fraudulent" for
player 200 abort once and return false ("fraudulent" recording its fixed ban
reason), and "fraudulent" for the absent player 42 is a fatal error. -/
theorem check_policy_conformity_spec_witness :
    (check_policy_conformity [1, 200] 200 "honest" =
      Except.ok { compliant := true, aborts := 0, new_bans := [] }) ∧
    (check_policy_conformity [1, 200] 200 "vm" =
      Except.ok { compliant := false, aborts := 1, new_bans := [] }) ∧
    (check_policy_conformity [1, 200] 200 "already_associated" =
      Except.ok { compliant := false, aborts := 1, new_bans := [] }) ∧
    (check_policy_conformity [1, 200] 200 "fraudulent" =
      Except.ok { compliant := false, aborts := 1, new_bans :=
                  [BanRow.mk 200 "Auto-banned because of fraudulent login attempt"] }) ∧
    (check_policy_conformity [1, 200] 42 "fraudulent" =
      Except.error (ClientError.fatal "Invalid player id")) :=
  ⟨(check_policy_conformity_spec [1, 200] 200 "honest").2.1 rfl,
   (check_policy_conformity_spec [1, 200] 200 "vm").2.2.1 (Or.inl rfl) (by decide),
   (check_policy_conformity_spec [1, 200] 200 "already_associated").2.2.1
     (Or.inr rfl) (by decide),
   (check_policy_conformity_spec [1, 200] 200 "fraudulent").2.2.2.1 rfl (by decide),
   (check_policy_conformity_spec [1, 200] 42 "fraudulent").2.2.2.2 rfl (by decide)⟩
